import Mathlib

/-!
Shallow embedding of `src/source/evp_override.c` from the
aws-verification-model-for-libcrypto repository, together with theorems
settling the behavioral claims about that model.

Modeling conventions:
* Each C function becomes a pure Lean function.  Pointers that a function may
  receive as `NULL` become `Option` arguments; a pointer parameter that the
  contract requires to be non-null is passed by value.
* A CBMC `assert(...)` (a contract violation when false) is modeled by the
  function returning `none`; `some ...` carries the return value and every
  caller-visible mutation.
* A CBMC `__CPROVER_assume(...)` constrains the nondeterministic oracle values
  (e.g. `nondet_bool()`, unconstrained `int rv`); those oracle values become
  explicit parameters and the corresponding assumptions become hypotheses of
  the theorems.
* Byte buffers are `List Nat` (their contents); the writable capacity of a
  buffer object (`__CPROVER_OBJECT_SIZE` / `__CPROVER_w_ok`) is the list
  length, or an explicit `Nat` capacity when only the capacity matters.
* Machine arithmetic is `Int`/`Nat` with explicit conversions where the C code
  mixes `int` and `size_t` (`sizeTOfInt`, `toCInt`).
-/

/-- Truncation of a mathematical integer to a C `size_t` (64-bit unsigned):
the value is reduced modulo `2 ^ 64`, as happens when an `int` expression is
converted to `size_t` in a comparison such as `out_size <= inl - 1`. -/
def sizeTOfInt (i : Int) : Nat := (i % ((2 : Int) ^ 64)).toNat

/-- Reinterpretation of a nonnegative `size_t` value as a C 32-bit signed
`int` (two's complement), as in the assignment `*outl = out_size;`. -/
def toCInt (n : Nat) : Int :=
  if n % 2 ^ 32 < 2 ^ 31 then ((n % 2 ^ 32 : Nat) : Int)
  else ((n % 2 ^ 32 : Nat) : Int) - 2 ^ 32

/-- C integer division on `Int`: truncation toward zero. -/
def cDiv (a : Int) (b : Nat) : Int :=
  if 0 ≤ a then ((a.toNat / b : Nat) : Int) else -(((-a).toNat / b : Nat) : Int)

/-- C integer remainder on `Int`: sign follows the dividend. -/
def cMod (a : Int) (b : Nat) : Int :=
  if 0 ≤ a then ((a.toNat % b : Nat) : Int) else -(((-a).toNat % b : Nat) : Int)

/-- Model of `write_unconstrained_data(buf, len)` (declared in the
repository's `evp_utils.h`, which is outside `src/`): overwrites the first
`data.length` bytes of `buf` with unconstrained oracle-chosen bytes `data`,
leaving the rest untouched.  Oracle bytes beyond the end of `buf` are
dropped: the modeled callers either assert writability for the written
extent first or leave an out-of-bounds write as a caller error. -/
def write_unconstrained_data : List Nat → List Nat → List Nat
  | buf, [] => buf
  | [], _ :: _ => []
  | _ :: buf, d :: data => d :: write_unconstrained_data buf data

/-- `EVP_PKEY`: the reference-counted key object.  The inner `ec_key` pointer
is modeled as `Option Bool`, the payload recording the verdict of the
external `ec_key_is_valid` (defined in `ec_override.c`, outside `src/`) for
the pointed-to EC key. -/
structure EVP_PKEY where
  references : Int
  ec_key : Option Bool
deriving DecidableEq

/-- A key object together with its allocation state: `destroyed` is the state
after `EVP_PKEY_free` has released the inner key material and freed the
object.  (Freeing an already destroyed object is undefined behavior in C and
is never performed by the theorems below.) -/
inductive KeyObj where
  | live (pkey : EVP_PKEY)
  | destroyed
deriving DecidableEq

/-- `EVP_PKEY_new()` on the successful-allocation path: reference count 1,
no inner key. -/
def EVP_PKEY_new : EVP_PKEY := { references := 1, ec_key := none }

/-- `evp_pkey_is_valid`: non-null (implicit), positive reference count, and
inner key material absent or itself valid. -/
def evp_pkey_is_valid (pkey : EVP_PKEY) : Bool :=
  decide (0 < pkey.references) && pkey.ec_key.getD true

/-- `EVP_PKEY_free`: on a live object, decrement the reference count only if
it is positive (the source's explicit underflow guard); when the count
reaches zero, free the inner key material and the object itself. -/
def EVP_PKEY_free : KeyObj → KeyObj
  | .live pkey =>
    if 0 < pkey.references then
      if pkey.references - 1 = 0 then .destroyed
      else .live { pkey with references := pkey.references - 1 }
    else .live pkey
  | .destroyed => .destroyed

/-- `EVP_PKEY_CTX`: the key-operation context.  The bound key pointer is
modeled by value (`Option EVP_PKEY`). -/
structure EVP_PKEY_CTX where
  is_initialized_for_signing : Bool
  is_initialized_for_derivation : Bool
  is_initialized_for_encryption : Bool
  is_initialized_for_decryption : Bool
  pkey : Option EVP_PKEY
deriving DecidableEq

/-- `EVP_PKEY_CTX_new(pkey, NULL)`: asserts `evp_pkey_is_valid(pkey)`
(`none` on violation); on allocation success (`mallocOk`) returns the fresh
context with all mode flags cleared and bumps the key's reference count; on
allocation failure returns `NULL` and leaves the key untouched.  The result
pairs the returned context with the post-state of the key. -/
def EVP_PKEY_CTX_new (pkey : EVP_PKEY) (mallocOk : Bool) :
    Option (Option EVP_PKEY_CTX × EVP_PKEY) :=
  if evp_pkey_is_valid pkey = true then
    if mallocOk then
      some (some { is_initialized_for_signing := false,
                   is_initialized_for_derivation := false,
                   is_initialized_for_encryption := false,
                   is_initialized_for_decryption := false,
                   pkey := some { pkey with references := pkey.references + 1 } },
            { pkey with references := pkey.references + 1 })
    else some (none, pkey)
  else none

/-- `n` successive calls to `EVP_PKEY_free` on a key object. -/
def freeN : Nat → KeyObj → KeyObj
  | 0, k => k
  | n + 1, k => freeN n (EVP_PKEY_free k)

/-- `evp_pkey_ctx_is_valid`: non-null (implicit) with a null or valid bound
key. -/
def evp_pkey_ctx_is_valid (ctx : EVP_PKEY_CTX) : Bool :=
  match ctx.pkey with
  | none => true
  | some p => evp_pkey_is_valid p

/-- `EVP_PKEY_sign(ctx, sig, siglen, tbs, tbslen)`.  Oracle parameters:
`fail` (`nondet_bool()` choosing the failure branch), `failRv` (the
unconstrained failure code, assumed `≤ 0`), `maxSig`
(`max_signature_size()`, nondeterministic but fixed, defined outside
`src/`), and `data` (the unconstrained signature bytes; `data.length` is the
`amount_of_data_written`, assumed `≤ maxSig`).  The buffer `sig` is `none`
for the NULL query mode.  The guard collects the source's `assert`s in
order: context validity, signing-readiness, non-null `siglen` (implicit),
the capacity precondition on `sig`, and readability of `tbs` (modeled by
capacity `tbsCap`).  Result: `(return value, sig buffer, *siglen)`. -/
def EVP_PKEY_sign (ctx : EVP_PKEY_CTX) (sig : Option (List Nat)) (siglen : Nat)
    (tbslen tbsCap : Nat) (maxSig : Nat) (fail : Bool) (failRv : Int)
    (data : List Nat) : Option (Int × Option (List Nat) × Nat) :=
  if evp_pkey_ctx_is_valid ctx = true ∧ ctx.is_initialized_for_signing = true ∧
     (sig = none ∨ (maxSig ≤ siglen ∧ siglen ≤ (sig.getD []).length)) ∧
     tbslen ≤ tbsCap then
    if fail then some (failRv, sig, siglen)
    else
      match sig with
      | none => some (1, none, maxSig)
      | some buf => some (1, some (write_unconstrained_data buf data), data.length)
  else none

/-- `EVP_PKEY_derive(ctx, key, keylen)`.  Oracle parameters as in
`EVP_PKEY_sign`, with `maxDerive` standing for `max_derivation_size()`; the
source assumes `data.length ≤ *keylen` (not `≤ maxDerive`).  The only
asserts are non-null `ctx` and `keylen` (implicit) and
`is_initialized_for_derivation`. -/
def EVP_PKEY_derive (ctx : EVP_PKEY_CTX) (key : Option (List Nat)) (keylen : Nat)
    (maxDerive : Nat) (fail : Bool) (failRv : Int) (data : List Nat) :
    Option (Int × Option (List Nat) × Nat) :=
  if ctx.is_initialized_for_derivation = true then
    if fail then some (failRv, key, keylen)
    else
      match key with
      | none => some (1, none, maxDerive)
      | some buf => some (1, some (write_unconstrained_data buf data), data.length)
  else none

/-- `EVP_PKEY_encrypt(ctx, out, outlen, in, inlen)`: the only assert is that
`ctx` is non-null (implicit in passing it by value); `maxEnc` stands for
`max_encryption_size()`; the source assumes `data.length ≤ *outlen`. -/
def EVP_PKEY_encrypt (ctx : EVP_PKEY_CTX) (out : Option (List Nat)) (outlen : Nat)
    (maxEnc : Nat) (fail : Bool) (failRv : Int) (data : List Nat) :
    Option (Int × Option (List Nat) × Nat) :=
  if fail then some (failRv, out, outlen)
  else
    match out with
    | none => some (1, none, maxEnc)
    | some buf => some (1, some (write_unconstrained_data buf data), data.length)

/-- `EVP_PKEY_decrypt(ctx, out, outlen, in, inlen)`: same shape as
`EVP_PKEY_encrypt` with `maxDec` standing for `max_decryption_size()`. -/
def EVP_PKEY_decrypt (ctx : EVP_PKEY_CTX) (out : Option (List Nat)) (outlen : Nat)
    (maxDec : Nat) (fail : Bool) (failRv : Int) (data : List Nat) :
    Option (Int × Option (List Nat) × Nat) :=
  if fail then some (failRv, out, outlen)
  else
    match out with
    | none => some (1, none, maxDec)
    | some buf => some (1, some (write_unconstrained_data buf data), data.length)

/-- A sample signing-ready key-operation context with no bound key. -/
def ctxSign : EVP_PKEY_CTX :=
  { is_initialized_for_signing := true, is_initialized_for_derivation := false,
    is_initialized_for_encryption := false, is_initialized_for_decryption := false,
    pkey := none }

/-- A sample derivation-ready key-operation context with no bound key. -/
def ctxDerive : EVP_PKEY_CTX :=
  { is_initialized_for_signing := false, is_initialized_for_derivation := true,
    is_initialized_for_encryption := false, is_initialized_for_decryption := false,
    pkey := none }

/-- Cipher algorithm identity tags (`enum` values from the repository's
`evp.h`, outside `src/`; the concrete numbers are immaterial, only
distinctness is used). -/
def EVP_AES_128_GCM : Nat := 0

def EVP_AES_192_GCM : Nat := 1

def EVP_AES_256_GCM : Nat := 2

def EVP_AES_128_ECB : Nat := 3

/-- `EVP_CIPHER`: immutable cipher descriptor; `from_alg` models the source
field `from` (a Lean keyword). -/
structure EVP_CIPHER where
  from_alg : Nat
  block_size : Nat
deriving DecidableEq

def EVP_aes_128_gcm : EVP_CIPHER := { from_alg := EVP_AES_128_GCM, block_size := 128 }

def EVP_aes_192_gcm : EVP_CIPHER := { from_alg := EVP_AES_192_GCM, block_size := 128 }

def EVP_aes_256_gcm : EVP_CIPHER := { from_alg := EVP_AES_256_GCM, block_size := 128 }

def EVP_aes_128_ecb : EVP_CIPHER := { from_alg := EVP_AES_128_ECB, block_size := 128 }

/-- `EVP_CIPHER_CTX`: the symmetric cipher context.  `encrypt` is a C `int`
(uninitialized after `EVP_CIPHER_CTX_new`, set by the init functions);
`data_remaining` is the carried-over byte count used by the null-cipher
modeling. -/
structure EVP_CIPHER_CTX where
  encrypt : Int
  iv_len : Nat
  iv_set : Bool
  key_len : Nat
  padding : Bool
  data_processed : Bool
  data_remaining : Int
  cipher : Option EVP_CIPHER
deriving DecidableEq

/-- `EVP_CIPHER_CTX_new()` on the successful path.  The `encrypt` field is
left uninitialized by the source (`malloc` garbage), modeled by the explicit
`initEncrypt` parameter. -/
def EVP_CIPHER_CTX_new (initEncrypt : Int) : EVP_CIPHER_CTX :=
  { encrypt := initEncrypt, iv_len := 12, iv_set := false, key_len := 32,
    padding := true, data_processed := false, data_remaining := 0, cipher := none }

/-- `EVP_CipherInit_ex(ctx, cipher, impl, key, iv, enc)`: asserts
`enc ∈ {0, 1, -1}`; applies the direction (when `enc ≠ -1`), the cipher
descriptor (when non-null) and the iv-set flag (when `iv` non-null,
modeled by the `iv : Bool` non-nullness flag), then returns the
unconstrained `rv ∈ {0, 1}`.  `key` is ignored by the source.
`cipherInitApply` is the sequence of the three conditional configuration
assignments in the source body. -/
def cipherInitApply (ctx : EVP_CIPHER_CTX) (cipher : Option EVP_CIPHER)
    (iv : Bool) (enc : Int) : EVP_CIPHER_CTX :=
  let c1 := if enc ≠ -1 then { ctx with encrypt := enc } else ctx
  let c2 := match cipher with
            | some c => { c1 with cipher := some c }
            | none => c1
  if iv then { c2 with iv_set := true } else c2

def EVP_CipherInit_ex (ctx : EVP_CIPHER_CTX) (cipher : Option EVP_CIPHER)
    (key : Bool) (iv : Bool) (enc : Int) (rv : Bool) :
    Option (EVP_CIPHER_CTX × Int) :=
  if enc = 0 ∨ enc = 1 ∨ enc = -1 then
    some (cipherInitApply ctx cipher iv enc, if rv then 1 else 0)
  else none

/-- `EVP_EncryptUpdate(ctx, out, outl, in, inl)`.  `outCap` is the writable
capacity of `out` (`none` = NULL, the AAD mode); `out_size` is the
nondeterministic `size_t` output size, constrained by the source's
`__CPROVER_assume`s (hypotheses of the theorems):
`out_size ≤ sizeTOfInt (inl - 1)` when a cipher is configured, and
`out_size ≤ sizeTOfInt inl` otherwise.  The source never writes the `out`
bytes; it asserts `__CPROVER_OBJECT_SIZE(out) ≥ out_size` and
`__CPROVER_w_ok(out, out_size)`, modeled by the `out_size ≤ cap` check.
Result: `(ctx, written *outl if out non-null, return value)`. -/
def EVP_EncryptUpdate (ctx : EVP_CIPHER_CTX) (outCap : Option Nat) (inl : Int)
    (rv : Bool) (out_size : Nat) : Option (EVP_CIPHER_CTX × Option Int × Int) :=
  if ctx.data_processed = false then
    match outCap with
    | none => some (ctx, none, if rv then 1 else 0)
    | some cap =>
      let ctx1 := if ctx.cipher.isSome then ctx
                  else { ctx with data_remaining := inl - (out_size : Int) }
      if out_size ≤ cap then some (ctx1, some (toCInt out_size), if rv then 1 else 0)
      else none
  else none

/-- `EVP_DecryptUpdate(ctx, out, outl, in, inl)`: identical mutation
structure to `EVP_EncryptUpdate`; it differs only in the source's
`__CPROVER_assume`s on `out_size` (hypotheses of the theorems):
`out_size ≤ sizeTOfInt inl` when a cipher is configured with padding
enabled, no constraint when a cipher is configured with padding disabled,
and `out_size ≤ sizeTOfInt inl` in the null-cipher case. -/
def EVP_DecryptUpdate (ctx : EVP_CIPHER_CTX) (outCap : Option Nat) (inl : Int)
    (rv : Bool) (out_size : Nat) : Option (EVP_CIPHER_CTX × Option Int × Int) :=
  if ctx.data_processed = false then
    match outCap with
    | none => some (ctx, none, if rv then 1 else 0)
    | some cap =>
      let ctx1 := if ctx.cipher.isSome then ctx
                  else { ctx with data_remaining := inl - (out_size : Int) }
      if out_size ≤ cap then some (ctx1, some (toCInt out_size), if rv then 1 else 0)
      else none
  else none

/-- `EVP_CipherUpdate(ctx, out, outl, in, inl)`: dispatches on the
direction flag (C truthiness: any non-zero `encrypt` selects encryption). -/
def EVP_CipherUpdate (ctx : EVP_CIPHER_CTX) (outCap : Option Nat) (inl : Int)
    (rv : Bool) (out_size : Nat) : Option (EVP_CIPHER_CTX × Option Int × Int) :=
  if ctx.encrypt ≠ 0 then EVP_EncryptUpdate ctx outCap inl rv out_size
  else EVP_DecryptUpdate ctx outCap inl rv out_size

/-- A sample cipher context configured for encryption with AES-256-GCM,
fresh (no data processed). -/
def ctxGcmEnc : EVP_CIPHER_CTX :=
  { encrypt := 1, iv_len := 12, iv_set := true, key_len := 32, padding := true,
    data_processed := false, data_remaining := 0, cipher := some EVP_aes_256_gcm }

/-- Digest algorithm identity tags (`enum` values from the repository's
`evp.h`, outside `src/`; only distinctness is used). -/
def EVP_MD5 : Nat := 0

def EVP_SHA1 : Nat := 1

def EVP_SHA224 : Nat := 2

def EVP_SHA256 : Nat := 3

def EVP_SHA384 : Nat := 4

def EVP_SHA512 : Nat := 5

/-- `EVP_MD`: immutable digest descriptor.  `from_alg` models the source
field `from`; `md_size` is the digest length.  The source struct has five
further numeric fields that no modeled operation reads. -/
structure EVP_MD where
  from_alg : Nat
  md_size : Nat
deriving DecidableEq

def EVP_md5 : EVP_MD := { from_alg := EVP_MD5, md_size := 16 }

def EVP_sha1 : EVP_MD := { from_alg := EVP_SHA1, md_size := 20 }

def EVP_sha224 : EVP_MD := { from_alg := EVP_SHA224, md_size := 28 }

def EVP_sha256 : EVP_MD := { from_alg := EVP_SHA256, md_size := 32 }

def EVP_sha384 : EVP_MD := { from_alg := EVP_SHA384, md_size := 48 }

def EVP_sha512 : EVP_MD := { from_alg := EVP_SHA512, md_size := 64 }

/-- `EVP_MD_size(md)`: the if-chain of the source, with 64 as the
fall-through value (the non-null assert is implicit in passing `md` by
value). -/
def EVP_MD_size (md : EVP_MD) : Nat :=
  if md.from_alg = EVP_MD5 then 16
  else if md.from_alg = EVP_SHA1 then 20
  else if md.from_alg = EVP_SHA224 then 28
  else if md.from_alg = EVP_SHA256 then 32
  else if md.from_alg = EVP_SHA384 then 48
  else 64

/-- `EVP_MD_CTX`: the digest context.  `md_data` records whether the scratch
buffer is allocated; the embedded `pctx` is omitted (no modeled claim reads
it). -/
structure EVP_MD_CTX where
  digest : Option EVP_MD
  md_data : Bool
  flags : Nat
deriving DecidableEq

/-- `EVP_MD_CTX_size(ctx)` = `EVP_MD_size(ctx->digest)`: `none` models the
contract violation of `EVP_MD_size`'s non-null assert when no digest is
set. -/
def EVP_MD_CTX_size (ctx : EVP_MD_CTX) : Option Nat :=
  ctx.digest.map EVP_MD_size

/-- `EVP_DigestFinal_ex(ctx, md, s)`.  The source asserts `ctx` non-null and
`__CPROVER_w_ok(md, EVP_MD_CTX_size(ctx))` (which itself requires a digest
to be set); then unconditionally writes one unconstrained byte to `*md`,
sets `*s` to the digest size when `s` is non-null, clears `ctx->digest`,
and finally either fails (overwriting `*s` with garbage and returning 0) or
succeeds (returning 1).  Result:
`(ctx, md buffer, *s if s non-null, return value)`. -/
def EVP_DigestFinal_ex (ctx : EVP_MD_CTX) (mdBuf : List Nat) (s : Option Nat)
    (freshByte : Nat) (fail : Bool) (garbage : Nat) :
    Option (EVP_MD_CTX × List Nat × Option Nat × Int) :=
  match ctx.digest with
  | none => none
  | some d =>
    if EVP_MD_size d ≤ mdBuf.length then
      let mdBuf1 := write_unconstrained_data mdBuf [freshByte]
      let ctx1 := { ctx with digest := none }
      if fail then some (ctx1, mdBuf1, s.map fun _ => garbage, 0)
      else some (ctx1, mdBuf1, s.map fun _ => EVP_MD_size d, 1)
    else none

/-- `HMAC_CTX`: the HMAC context; `md` is the digest descriptor pointer. -/
structure HMAC_CTX where
  is_initialized : Bool
  md : Option EVP_MD
deriving DecidableEq

/-- `hmac_ctx_is_valid`: non-null (implicit) and initialized. -/
def hmac_ctx_is_valid (ctx : HMAC_CTX) : Bool :=
  ctx.is_initialized

/-- `HMAC_Update(ctx, data, len)`: asserts validity; mutates nothing;
returns the unconstrained `rv ∈ {0, 1}`. -/
def HMAC_Update (ctx : HMAC_CTX) (rv : Bool) : Option (HMAC_CTX × Int) :=
  if hmac_ctx_is_valid ctx = true then some (ctx, if rv then 1 else 0) else none

/-- `HMAC_Final(ctx, md, len)`: asserts validity and a non-null digest
descriptor; sets `*len` to `EVP_MD_size(ctx->md)` and returns the
unconstrained `rv ∈ {0, 1}`.  The source line
`__CPROVER_w_ok(md, md_size);` is a bare expression statement whose value
is discarded — the writable capacity `mdCap` of `md` is therefore never
checked (the final `__CPROVER_assume(md != NULL)` only prunes null-`md`
executions).  Result: `(ctx, *len, return value)`. -/
def HMAC_Final (ctx : HMAC_CTX) (mdCap : Nat) (rv : Bool) :
    Option (HMAC_CTX × Nat × Int) :=
  if hmac_ctx_is_valid ctx = true then
    match ctx.md with
    | none => none
    | some d => some (ctx, EVP_MD_size d, if rv then 1 else 0)
  else none

/-- A sample initialized HMAC context with the SHA-256 descriptor set. -/
def ctxHmac : HMAC_CTX := { is_initialized := true, md := some EVP_sha256 }

/-- `EVP_DecodeBlock(t, f, n)`.  `tCap`/`fLen` are the writable/readable
capacities of `t`/`f`; `fail` is the `nondet_bool()` malformed-input
branch.  Order follows the source: `n == 0` returns 0 before any check;
the nondeterministic `-1` return comes *before* the `n % 4 == 0` assert;
then readability of `f` for `n` bytes and writability of `t` for
`n / 4 * 3` bytes are asserted (sizes converted from `int` to `size_t`),
and `n` is returned.  The source performs no actual byte writes: the
written extent is expressed by the `__CPROVER_w_ok` obligation. -/
def EVP_DecodeBlock (tCap fLen : Nat) (n : Int) (fail : Bool) : Option Int :=
  if n = 0 then some 0
  else if fail = true then some (-1)
  else if cMod n 4 = 0 then
    if sizeTOfInt n ≤ fLen then
      if sizeTOfInt (cDiv n 4 * 3) ≤ tCap then some n else none
    else none
  else none

/-- `written_length` of `EVP_EncodeBlock`: `n / 3 * 4`, plus 4 when `n` is
not divisible by 3, plus 1 for the NUL terminator. -/
def encWritten (n : Int) : Int :=
  cDiv n 3 * 4 + (if cMod n 3 = 0 then 0 else 4) + 1

/-- `EVP_EncodeBlock(t, f, n)`.  The source first asserts
`__CPROVER_w_ok(t, 1)` (room for the terminator, even for `n = 0`); `n == 0`
then returns 0; the nondeterministic `-1` return follows; then readability
of `f` for `n` bytes and writability of `t` for `encWritten n` bytes are
asserted, and `encWritten n - 1` (the length without the terminator) is
returned. -/
def EVP_EncodeBlock (tCap fLen : Nat) (n : Int) (fail : Bool) : Option Int :=
  if 1 ≤ tCap then
    if n = 0 then some 0
    else if fail = true then some (-1)
    else if sizeTOfInt n ≤ fLen then
      if sizeTOfInt (encWritten n) ≤ tCap then some (encWritten n - 1) else none
    else none
  else none

theorem toCInt_of_lt {n : Nat} (h : n < 2 ^ 31) : toCInt n = (n : Int) := by
  have h32 : n % 2 ^ 32 = n := Nat.mod_eq_of_lt (lt_trans h (by norm_num))
  simp only [toCInt, h32]
  rw [if_pos h]

theorem sizeTOfInt_of_nonneg {i : Int} (h0 : 0 ≤ i) (h1 : i < 2 ^ 64) :
    sizeTOfInt i = i.toNat := by
  unfold sizeTOfInt
  rw [Int.emod_eq_of_lt h0 (by exact_mod_cast h1)]

theorem write_unconstrained_data_length (buf data : List Nat) :
    (write_unconstrained_data buf data).length = buf.length := by
  induction buf generalizing data with
  | nil => cases data <;> rfl
  | cons b bs ih =>
    cases data with
    | nil => rfl
    | cons d ds => simp [write_unconstrained_data, ih]

theorem write_unconstrained_data_getD (buf data : List Nat) (i : Nat)
    (h : data.length ≤ i) :
    (write_unconstrained_data buf data).getD i 0 = buf.getD i 0 := by
  induction buf generalizing data i with
  | nil => cases data <;> rfl
  | cons b bs ih =>
    cases data with
    | nil => rfl
    | cons d ds =>
      cases i with
      | zero => simp at h
      | succ j =>
        simp only [write_unconstrained_data, List.getD_cons_succ]
        exact ih ds j (by simpa using h)

theorem free_live_step (N : Nat) (ec : Option Bool) (h : 2 ≤ N) :
    EVP_PKEY_free (.live { references := (N : Int), ec_key := ec })
      = .live { references := ((N - 1 : Nat) : Int), ec_key := ec } := by
  simp only [EVP_PKEY_free]
  rw [if_pos (by exact_mod_cast (by omega : 0 < N))]
  rw [if_neg (by omega)]
  have hsub : (N : Int) - 1 = ((N - 1 : Nat) : Int) := by omega
  simp [hsub]

theorem freeN_live_of_lt (j N : Nat) (ec : Option Bool) (h : j < N) :
    freeN j (.live { references := (N : Int), ec_key := ec })
      = .live { references := (N : Int) - (j : Int), ec_key := ec } := by
  induction j generalizing N with
  | zero => simp [freeN]
  | succ i ih =>
    show freeN i (EVP_PKEY_free (.live { references := (N : Int), ec_key := ec })) = _
    rw [free_live_step N ec (by omega)]
    rw [ih (N - 1) (by omega)]
    have hsub : ((N - 1 : Nat) : Int) - (i : Int) = (N : Int) - ((i + 1 : Nat) : Int) := by
      omega
    simp [hsub]

theorem freeN_destroy (N : Nat) (ec : Option Bool) (h : 0 < N) :
    freeN N (.live { references := (N : Int), ec_key := ec }) = .destroyed := by
  induction N with
  | zero => omega
  | succ n ih =>
    show freeN n (EVP_PKEY_free (.live { references := ((n + 1 : Nat) : Int), ec_key := ec }))
      = .destroyed
    rcases Nat.eq_zero_or_pos n with hn | hn
    · subst hn
      norm_num [EVP_PKEY_free, freeN]
    · rw [free_live_step (n + 1) ec (by omega)]
      simpa using ih hn

/-- Claim C5: `EVP_PKEY_CTX_new` binding a key raises the key's reference
count by one; `EVP_PKEY_free` on a live key with positive count decrements it
by one and destroys the object (freeing the inner key material) exactly when
the count reaches zero; consequently, a key whose reference count is `N`
(reached by its creation plus `N - 1` attach-equivalent increments) is
destroyed by exactly the `N`-th release: every earlier prefix of releases
leaves it live. -/
theorem claim_C5_refcount :
    (∀ (pkey : EVP_PKEY) (mallocOk : Bool) (ctx : Option EVP_PKEY_CTX) (pkey1 : EVP_PKEY),
       evp_pkey_is_valid pkey = true → mallocOk = true →
       EVP_PKEY_CTX_new pkey mallocOk = some (ctx, pkey1) →
       pkey1.references = pkey.references + 1) ∧
    (∀ p : EVP_PKEY, 0 < p.references →
       EVP_PKEY_free (.live p)
         = if p.references = 1 then .destroyed
           else .live { p with references := p.references - 1 }) ∧
    (∀ (N : Nat) (ec : Option Bool), 0 < N →
       freeN N (.live { references := (N : Int), ec_key := ec }) = .destroyed ∧
       ∀ j, j < N →
         freeN j (.live { references := (N : Int), ec_key := ec })
           = .live { references := (N : Int) - (j : Int), ec_key := ec }) := by
  refine ⟨?_, ?_, ?_⟩
  · intro pkey mallocOk ctx pkey1 hvalid hmalloc heq
    subst hmalloc
    simp only [EVP_PKEY_CTX_new, hvalid, if_pos, if_true] at heq
    simp only [Option.some.injEq, Prod.mk.injEq] at heq
    rw [← heq.2]
  · intro p hp
    simp only [EVP_PKEY_free]
    rw [if_pos hp]
    by_cases h1 : p.references = 1
    · rw [if_pos (by omega), if_pos h1]
    · rw [if_neg (by omega), if_neg h1]
  · intro N ec hN
    exact ⟨freeN_destroy N ec hN, fun j hj => freeN_live_of_lt j N ec hj⟩

/-- Concrete instantiation of claim C5: a key with reference count 2 survives
one release and is destroyed by the second; `EVP_PKEY_CTX_new` on a fresh key
yields reference count 2. -/
theorem claim_C5_refcount_witness :
    ({ references := 2, ec_key := none } : EVP_PKEY).references
        = EVP_PKEY_new.references + 1 ∧
    freeN 2 (.live { references := (2 : Int), ec_key := none }) = .destroyed ∧
    freeN 1 (.live { references := (2 : Int), ec_key := none })
      = .live { references := (2 : Int) - (1 : Int), ec_key := none } :=
  ⟨claim_C5_refcount.1 EVP_PKEY_new true
      (some { is_initialized_for_signing := false,
              is_initialized_for_derivation := false,
              is_initialized_for_encryption := false,
              is_initialized_for_decryption := false,
              pkey := some { references := 2, ec_key := none } })
      { references := 2, ec_key := none } (by decide) rfl (by decide),
   (claim_C5_refcount.2.2 2 none (by decide)).1,
   (claim_C5_refcount.2.2 2 none (by decide)).2 1 (by decide)⟩

/-- Claim C10: `EVP_PKEY_free` on a non-null key whose reference count is
already zero or negative leaves the object completely unchanged: no
decrement, no underflow, and neither the object nor its inner key material
is freed. -/
theorem claim_C10_free_underflow (p : EVP_PKEY) (h : p.references ≤ 0) :
    EVP_PKEY_free (.live p) = .live p := by
  simp only [EVP_PKEY_free]
  rw [if_neg (by omega)]

/-- Concrete instantiation of claim C10 at reference count 0 with inner key
material present. -/
theorem claim_C10_free_underflow_witness :
    EVP_PKEY_free (.live { references := 0, ec_key := some true })
      = .live { references := 0, ec_key := some true } :=
  claim_C10_free_underflow { references := 0, ec_key := some true } (by decide)

/-- Claim C1: on a valid, signing-ready context, `EVP_PKEY_sign` with a NULL
`sig` buffer succeeds writing `max_signature_size()` to `*siglen`; with a
non-null `sig` buffer of capacity `*siglen` at least that maximum, it
succeeds writing `amount ≤ max` bytes (bytes from `amount` on are untouched)
and sets `*siglen` to the amount written; on failure it returns a
non-positive code and mutates neither `sig` nor `*siglen`. -/
theorem claim_C1_sign_contract :
    (∀ (ctx : EVP_PKEY_CTX) (siglen tbslen tbsCap maxSig : Nat) (data : List Nat),
       evp_pkey_ctx_is_valid ctx = true → ctx.is_initialized_for_signing = true →
       tbslen ≤ tbsCap →
       EVP_PKEY_sign ctx none siglen tbslen tbsCap maxSig false 0 data
         = some (1, none, maxSig)) ∧
    (∀ (ctx : EVP_PKEY_CTX) (buf : List Nat) (siglen tbslen tbsCap maxSig : Nat)
       (data : List Nat),
       evp_pkey_ctx_is_valid ctx = true → ctx.is_initialized_for_signing = true →
       maxSig ≤ siglen → siglen ≤ buf.length → tbslen ≤ tbsCap →
       data.length ≤ maxSig →
       EVP_PKEY_sign ctx (some buf) siglen tbslen tbsCap maxSig false 0 data
           = some (1, some (write_unconstrained_data buf data), data.length) ∧
         data.length ≤ maxSig ∧
         (write_unconstrained_data buf data).length = buf.length ∧
         (∀ i, data.length ≤ i →
            (write_unconstrained_data buf data).getD i 0 = buf.getD i 0)) ∧
    (∀ (ctx : EVP_PKEY_CTX) (sig : Option (List Nat)) (siglen tbslen tbsCap maxSig : Nat)
       (failRv : Int) (data : List Nat),
       evp_pkey_ctx_is_valid ctx = true → ctx.is_initialized_for_signing = true →
       (sig = none ∨ (maxSig ≤ siglen ∧ siglen ≤ (sig.getD []).length)) →
       tbslen ≤ tbsCap → failRv ≤ 0 →
       EVP_PKEY_sign ctx sig siglen tbslen tbsCap maxSig true failRv data
           = some (failRv, sig, siglen) ∧ failRv ≤ 0) := by
  refine ⟨?_, ?_, ?_⟩
  · intro ctx siglen tbslen tbsCap maxSig data hv hs ht
    rw [EVP_PKEY_sign.eq_def, if_pos ⟨hv, hs, Or.inl rfl, ht⟩]
    rfl
  · intro ctx buf siglen tbslen tbsCap maxSig data hv hs hmax hcap ht hamt
    refine ⟨?_, hamt, write_unconstrained_data_length buf data,
            fun i hi => write_unconstrained_data_getD buf data i hi⟩
    rw [EVP_PKEY_sign.eq_def, if_pos ⟨hv, hs, Or.inr ⟨hmax, by simpa using hcap⟩, ht⟩]
    rfl
  · intro ctx sig siglen tbslen tbsCap maxSig failRv data hv hs hsig ht hrv
    refine ⟨?_, hrv⟩
    rw [EVP_PKEY_sign.eq_def, if_pos ⟨hv, hs, hsig, ht⟩]
    rfl

/-- Concrete instantiation of claim C1: a signing-ready context, query mode
reporting `maxSig = 4`, produce mode writing 2 of 4 bytes, and a failing
call with code `-2` leaving buffer and length untouched. -/
theorem claim_C1_sign_contract_witness :
    EVP_PKEY_sign ctxSign none 0 3 3 4 false 0 [] = some (1, none, 4) ∧
    EVP_PKEY_sign ctxSign (some [9, 9, 9, 9]) 4 3 3 4 false 0 [7, 7]
      = some (1, some (write_unconstrained_data [9, 9, 9, 9] [7, 7]), ([7, 7] : List Nat).length) ∧
    EVP_PKEY_sign ctxSign (some [9, 9, 9, 9]) 4 3 3 4 true (-2) [7, 7]
      = some (-2, some [9, 9, 9, 9], 4) :=
  ⟨claim_C1_sign_contract.1 ctxSign 0 3 3 4 [] (by decide) (by decide) (by decide),
   (claim_C1_sign_contract.2.1 ctxSign [9, 9, 9, 9] 4 3 3 4 [7, 7] (by decide) (by decide)
      (by decide) (by decide) (by decide) (by decide)).1,
   (claim_C1_sign_contract.2.2 ctxSign (some [9, 9, 9, 9]) 4 3 3 4 (-2) [7, 7] (by decide)
      (by decide) (Or.inr ⟨by decide, by decide⟩) (by decide) (by decide)).1⟩

/-- Claim C4 counterexample: a derivation-ready context, fixed maximum
derived-secret size `max_derivation_size() = 0`, buffer capacity
`*keylen = 1`, and oracle amount 1 (which satisfies the source's only
assumption `amount_of_data_written <= *keylen`).  The successful call
reports `*keylen = 1`, which exceeds the fixed maximum 0, refuting the
claim that the reported amount is bounded by the fixed maximum
derived-secret size. -/
theorem claim_C4_counterexample :
    ([7] : List Nat).length ≤ 1 ∧
    EVP_PKEY_derive ctxDerive (some [5]) 1 0 false 0 [7] = some (1, some [7], 1) ∧
    ¬ ((1 : Nat) ≤ 0) := by
  refine ⟨by decide, ?_, by decide⟩
  rfl

/-- Claim C4 as amended: a successful `EVP_PKEY_derive` with a NULL output
buffer writes the fixed maximum derived-secret size to `*keylen`; a
successful call with a non-null buffer reports an amount bounded by the
caller-supplied capacity passed in via `*keylen` — the fixed maximum
derived-secret size is not enforced on the produce path. -/
theorem claim_C4_amended :
    (∀ (ctx : EVP_PKEY_CTX) (keylen maxDerive : Nat) (data : List Nat),
       ctx.is_initialized_for_derivation = true →
       EVP_PKEY_derive ctx none keylen maxDerive false 0 data
         = some (1, none, maxDerive)) ∧
    (∀ (ctx : EVP_PKEY_CTX) (buf : List Nat) (keylen maxDerive : Nat) (data : List Nat),
       ctx.is_initialized_for_derivation = true → data.length ≤ keylen →
       EVP_PKEY_derive ctx (some buf) keylen maxDerive false 0 data
           = some (1, some (write_unconstrained_data buf data), data.length) ∧
         data.length ≤ keylen) := by
  constructor
  · intro ctx keylen maxDerive data hd
    rw [EVP_PKEY_derive.eq_def, if_pos hd]
    rfl
  · intro ctx buf keylen maxDerive data hd hamt
    refine ⟨?_, hamt⟩
    rw [EVP_PKEY_derive.eq_def, if_pos hd]
    rfl

/-- Concrete instantiation of the amended claim C4: query mode reports the
fixed maximum 5; produce mode with capacity 3 writes 2 bytes. -/
theorem claim_C4_amended_witness :
    EVP_PKEY_derive ctxDerive none 0 5 false 0 [] = some (1, none, 5) ∧
    EVP_PKEY_derive ctxDerive (some [9, 9, 9]) 3 5 false 0 [7, 7]
      = some (1, some (write_unconstrained_data [9, 9, 9] [7, 7]), ([7, 7] : List Nat).length) :=
  ⟨claim_C4_amended.1 ctxDerive 0 5 [] (by decide),
   (claim_C4_amended.2 ctxDerive [9, 9, 9] 3 5 [7, 7] (by decide) (by decide)).1⟩

/-- Claim C3 counterexample: `EVP_EncryptUpdate` on a fresh context with a
real cipher configured, a non-null output buffer of capacity 1, and input
length `inl = 0`.  The source's constraint `out_size <= inl - 1` compares a
`size_t` with an `int`: `inl - 1` is converted to `size_t`, so for
`inl = 0` it becomes `2^64 - 1` and `out_size = 1` is a permitted oracle
choice.  The call then reports `*outl = 1 > 0 = inl`, refuting the claim
that the reported length never exceeds the input length. -/
theorem claim_C3_counterexample :
    1 ≤ sizeTOfInt ((0 : Int) - 1) ∧
    EVP_EncryptUpdate ctxGcmEnc (some 1) 0 true 1 = some (ctxGcmEnc, some 1, 1) ∧
    ¬ ((1 : Int) ≤ 0) := by
  refine ⟨by decide, ?_, by decide⟩
  rfl

/-- Claim C3 as amended: for every cipher-context update call on a context
not yet finalized, with a real cipher configured and a non-null output
buffer, provided the input length is at least 1 for `EVP_EncryptUpdate`
(whose `size_t` bound is `inl - 1`) and at least 0 for `EVP_DecryptUpdate`
with padding enabled, the reported output length `*outl` is never negative
and never exceeds `inl`; `EVP_CipherUpdate` dispatches to these two by the
direction flag.  (For `inl = 0` in the encrypt case the `int`-to-`size_t`
conversion makes the source's bound vacuous and `*outl` can exceed `inl`.) -/
theorem claim_C3_amended :
    (∀ (ctx : EVP_CIPHER_CTX) (cap : Nat) (inl : Int) (rv : Bool) (out_size : Nat)
       (c : EVP_CIPHER),
       ctx.data_processed = false → ctx.cipher = some c →
       1 ≤ inl → inl < 2 ^ 31 → out_size ≤ sizeTOfInt (inl - 1) → out_size ≤ cap →
       EVP_EncryptUpdate ctx (some cap) inl rv out_size
           = some (ctx, some (toCInt out_size), if rv then 1 else 0) ∧
         0 ≤ toCInt out_size ∧ toCInt out_size ≤ inl) ∧
    (∀ (ctx : EVP_CIPHER_CTX) (cap : Nat) (inl : Int) (rv : Bool) (out_size : Nat)
       (c : EVP_CIPHER),
       ctx.data_processed = false → ctx.cipher = some c → ctx.padding = true →
       0 ≤ inl → inl < 2 ^ 31 → out_size ≤ sizeTOfInt inl → out_size ≤ cap →
       EVP_DecryptUpdate ctx (some cap) inl rv out_size
           = some (ctx, some (toCInt out_size), if rv then 1 else 0) ∧
         0 ≤ toCInt out_size ∧ toCInt out_size ≤ inl) ∧
    (∀ (ctx : EVP_CIPHER_CTX) (outCap : Option Nat) (inl : Int) (rv : Bool) (out_size : Nat),
       EVP_CipherUpdate ctx outCap inl rv out_size
         = if ctx.encrypt ≠ 0 then EVP_EncryptUpdate ctx outCap inl rv out_size
           else EVP_DecryptUpdate ctx outCap inl rv out_size) := by
  refine ⟨?_, ?_, ?_⟩
  · intro ctx cap inl rv out_size c hdp hc hinl hinl31 hout hcap
    have hle : (out_size : Int) ≤ inl - 1 := by
      rw [sizeTOfInt_of_nonneg (by omega) (by omega)] at hout
      omega
    have hsmall : out_size < 2 ^ 31 := by omega
    have htc : toCInt out_size = (out_size : Int) := toCInt_of_lt hsmall
    refine ⟨?_, by rw [htc]; omega, by rw [htc]; omega⟩
    rw [EVP_EncryptUpdate.eq_def, if_pos hdp]
    simp only [hc, Option.isSome_some, if_true, ite_true]
    rw [if_pos hcap]
  · intro ctx cap inl rv out_size c hdp hc hpad hinl hinl31 hout hcap
    have hle : (out_size : Int) ≤ inl := by
      rw [sizeTOfInt_of_nonneg (by omega) (by omega)] at hout
      omega
    have hsmall : out_size < 2 ^ 31 := by omega
    have htc : toCInt out_size = (out_size : Int) := toCInt_of_lt hsmall
    refine ⟨?_, by rw [htc]; omega, by rw [htc]; omega⟩
    rw [EVP_DecryptUpdate.eq_def, if_pos hdp]
    simp only [hc, Option.isSome_some, if_true, ite_true]
    rw [if_pos hcap]
  · intro ctx outCap inl rv out_size
    rfl

/-- Concrete instantiation of the amended claim C3: encrypt update with
`inl = 4` reporting 3 bytes, decrypt update with `inl = 4` reporting
4 bytes. -/
theorem claim_C3_amended_witness :
    EVP_EncryptUpdate ctxGcmEnc (some 8) 4 true 3 = some (ctxGcmEnc, some (toCInt 3), 1) ∧
    (0 : Int) ≤ toCInt 3 ∧ toCInt 3 ≤ 4 ∧
    EVP_DecryptUpdate ctxGcmEnc (some 8) 4 true 4 = some (ctxGcmEnc, some (toCInt 4), 1) ∧
    (0 : Int) ≤ toCInt 4 ∧ toCInt 4 ≤ 4 :=
  ⟨(claim_C3_amended.1 ctxGcmEnc 8 4 true 3 EVP_aes_256_gcm (by decide) (by decide)
      (by decide) (by decide) (by decide) (by decide)).1,
   (claim_C3_amended.1 ctxGcmEnc 8 4 true 3 EVP_aes_256_gcm (by decide) (by decide)
      (by decide) (by decide) (by decide) (by decide)).2.1,
   (claim_C3_amended.1 ctxGcmEnc 8 4 true 3 EVP_aes_256_gcm (by decide) (by decide)
      (by decide) (by decide) (by decide) (by decide)).2.2,
   (claim_C3_amended.2.1 ctxGcmEnc 8 4 true 4 EVP_aes_256_gcm (by decide) (by decide)
      (by decide) (by decide) (by decide) (by decide) (by decide)).1,
   (claim_C3_amended.2.1 ctxGcmEnc 8 4 true 4 EVP_aes_256_gcm (by decide) (by decide)
      (by decide) (by decide) (by decide) (by decide) (by decide)).2.1,
   (claim_C3_amended.2.1 ctxGcmEnc 8 4 true 4 EVP_aes_256_gcm (by decide) (by decide)
      (by decide) (by decide) (by decide) (by decide) (by decide)).2.2⟩

/-- Claim C9: `EVP_CipherInit_ex` applies its configuration before choosing
its result: for `enc ∈ {0, 1}` the direction flag is set, a non-null cipher
descriptor is stored, a non-null iv marks `iv_set`, and the resulting
context state is the same whether the call returns 1 or 0. -/
theorem claim_C9_cipher_init
    (ctx : EVP_CIPHER_CTX) (cipher : Option EVP_CIPHER) (key iv : Bool)
    (enc : Int) (rv : Bool) (henc : enc = 0 ∨ enc = 1) :
    ∃ ctx1, EVP_CipherInit_ex ctx cipher key iv enc rv
        = some (ctx1, if rv then 1 else 0) ∧
      ctx1.encrypt = enc ∧
      (∀ c, cipher = some c → ctx1.cipher = some c) ∧
      (iv = true → ctx1.iv_set = true) ∧
      (EVP_CipherInit_ex ctx cipher key iv enc true).map (fun r => r.1)
        = (EVP_CipherInit_ex ctx cipher key iv enc false).map (fun r => r.1) := by
  have hg : enc = 0 ∨ enc = 1 ∨ enc = -1 := by tauto
  have hne : enc ≠ -1 := by rcases henc with rfl | rfl <;> decide
  refine ⟨cipherInitApply ctx cipher iv enc, ?_, ?_, ?_, ?_, ?_⟩
  · rw [EVP_CipherInit_ex, if_pos hg]
  · cases cipher <;> cases iv <;> simp [cipherInitApply, hne]
  · intro c hc
    subst hc
    cases iv <;> simp [cipherInitApply]
  · intro hiv
    subst hiv
    cases cipher <;> simp [cipherInitApply]
  · rw [EVP_CipherInit_ex, EVP_CipherInit_ex, if_pos hg, if_pos hg]
    simp

/-- Concrete instantiation of claim C9: initializing a fresh context for
decryption with AES-128-GCM and an iv, on the failing branch (`rv = 0`),
still records direction, cipher and iv. -/
theorem claim_C9_cipher_init_witness :
    ∃ ctx1, EVP_CipherInit_ex (EVP_CIPHER_CTX_new 7) (some EVP_aes_128_gcm) true true 0 false
        = some (ctx1, if false then 1 else 0) ∧
      ctx1.encrypt = 0 ∧
      (∀ c, some EVP_aes_128_gcm = some c → ctx1.cipher = some c) ∧
      (true = true → ctx1.iv_set = true) ∧
      (EVP_CipherInit_ex (EVP_CIPHER_CTX_new 7) (some EVP_aes_128_gcm) true true 0 true).map
          (fun r => r.1)
        = (EVP_CipherInit_ex (EVP_CIPHER_CTX_new 7) (some EVP_aes_128_gcm) true true 0 false).map
          (fun r => r.1) :=
  claim_C9_cipher_init (EVP_CIPHER_CTX_new 7) (some EVP_aes_128_gcm) true true 0 false
    (Or.inl rfl)

/-- Claim C2 counterexample: `EVP_DigestFinal_ex` on an initialized SHA-256
digest context, on the failing branch, returns 0 — yet the output buffer
`md` differs from its pre-call contents, because the source executes
`*md = nondet_unsigned_char();` before choosing the failure branch.  This
refutes the claim that when `EVP_DigestFinal_ex` returns 0 the output
buffer has not been written. -/
theorem claim_C2_counterexample :
    EVP_DigestFinal_ex { digest := some EVP_sha256, md_data := true, flags := 0 }
        (List.replicate 32 0) (some 0) 1 true 99
      = some ({ digest := none, md_data := true, flags := 0 },
              1 :: List.replicate 31 0, some 99, 0) ∧
    (1 :: List.replicate 31 0 : List Nat) ≠ List.replicate 32 0 := by
  constructor
  · rfl
  · decide

/-- Claim C2 as amended: for the asymmetric-key provider operations
(`EVP_PKEY_sign`, `EVP_PKEY_derive`, `EVP_PKEY_encrypt`,
`EVP_PKEY_decrypt`), a failure return mutates no caller-visible output
buffer or tracked size; for `EVP_DigestFinal_ex`, a failure return leaves
the reported digest length undefined (garbage), clears the context's digest
descriptor, and has already overwritten the first byte of the output buffer
`md` — bytes of `md` beyond the first are untouched. -/
theorem claim_C2_amended :
    (∀ (ctx : EVP_PKEY_CTX) (sig : Option (List Nat)) (siglen tbslen tbsCap maxSig : Nat)
       (failRv : Int) (data : List Nat),
       evp_pkey_ctx_is_valid ctx = true → ctx.is_initialized_for_signing = true →
       (sig = none ∨ (maxSig ≤ siglen ∧ siglen ≤ (sig.getD []).length)) →
       tbslen ≤ tbsCap →
       EVP_PKEY_sign ctx sig siglen tbslen tbsCap maxSig true failRv data
         = some (failRv, sig, siglen)) ∧
    (∀ (ctx : EVP_PKEY_CTX) (key : Option (List Nat)) (keylen maxDerive : Nat)
       (failRv : Int) (data : List Nat),
       ctx.is_initialized_for_derivation = true →
       EVP_PKEY_derive ctx key keylen maxDerive true failRv data
         = some (failRv, key, keylen)) ∧
    (∀ (ctx : EVP_PKEY_CTX) (out : Option (List Nat)) (outlen maxEnc : Nat)
       (failRv : Int) (data : List Nat),
       EVP_PKEY_encrypt ctx out outlen maxEnc true failRv data
         = some (failRv, out, outlen)) ∧
    (∀ (ctx : EVP_PKEY_CTX) (out : Option (List Nat)) (outlen maxDec : Nat)
       (failRv : Int) (data : List Nat),
       EVP_PKEY_decrypt ctx out outlen maxDec true failRv data
         = some (failRv, out, outlen)) ∧
    (∀ (ctx : EVP_MD_CTX) (d : EVP_MD) (mdBuf : List Nat) (s : Option Nat)
       (freshByte garbage : Nat),
       ctx.digest = some d → EVP_MD_size d ≤ mdBuf.length →
       EVP_DigestFinal_ex ctx mdBuf s freshByte true garbage
           = some ({ ctx with digest := none },
                   write_unconstrained_data mdBuf [freshByte],
                   s.map fun _ => garbage, 0) ∧
         (∀ i, 1 ≤ i →
            (write_unconstrained_data mdBuf [freshByte]).getD i 0 = mdBuf.getD i 0)) := by
  refine ⟨?_, ?_, ?_, ?_, ?_⟩
  · intro ctx sig siglen tbslen tbsCap maxSig failRv data hv hs hsig ht
    rw [EVP_PKEY_sign.eq_def, if_pos ⟨hv, hs, hsig, ht⟩]
    rfl
  · intro ctx key keylen maxDerive failRv data hd
    rw [EVP_PKEY_derive.eq_def, if_pos hd]
    rfl
  · intro ctx out outlen maxEnc failRv data
    rfl
  · intro ctx out outlen maxDec failRv data
    rfl
  · intro ctx d mdBuf s freshByte garbage hd hcap
    constructor
    · rw [EVP_DigestFinal_ex.eq_def, hd]
      simp only [if_pos hcap]
      simp
    · intro i hi
      exact write_unconstrained_data_getD mdBuf [freshByte] i (by simpa using hi)

/-- Concrete instantiation of the amended claim C2: failing sign, derive,
encrypt, decrypt and digest-finalize calls with concrete buffers. -/
theorem claim_C2_amended_witness :
    EVP_PKEY_sign ctxSign (some [9, 9, 9, 9]) 4 0 0 4 true (-1) [7]
      = some (-1, some [9, 9, 9, 9], 4) ∧
    EVP_PKEY_derive ctxDerive (some [9]) 1 5 true (-1) [7]
      = some (-1, some [9], 1) ∧
    EVP_PKEY_encrypt ctxSign (some [9]) 1 5 true (-1) [7]
      = some (-1, some [9], 1) ∧
    EVP_PKEY_decrypt ctxSign (some [9]) 1 5 true (-1) [7]
      = some (-1, some [9], 1) ∧
    EVP_DigestFinal_ex { digest := some EVP_sha1, md_data := true, flags := 0 }
        (List.replicate 20 5) none 8 true 3
      = some ({ digest := none, md_data := true, flags := 0 },
              write_unconstrained_data (List.replicate 20 5) [8], none, 0) ∧
    (write_unconstrained_data (List.replicate 20 5) [8]).getD 1 0
      = (List.replicate 20 5 : List Nat).getD 1 0 :=
  ⟨claim_C2_amended.1 ctxSign (some [9, 9, 9, 9]) 4 0 0 4 (-1) [7] (by decide) (by decide)
      (Or.inr ⟨by decide, by decide⟩) (by decide),
   claim_C2_amended.2.1 ctxDerive (some [9]) 1 5 (-1) [7] (by decide),
   claim_C2_amended.2.2.1 ctxSign (some [9]) 1 5 (-1) [7],
   claim_C2_amended.2.2.2.1 ctxSign (some [9]) 1 5 (-1) [7],
   (claim_C2_amended.2.2.2.2 { digest := some EVP_sha1, md_data := true, flags := 0 }
      EVP_sha1 (List.replicate 20 5) none 8 3 rfl (by decide)).1,
   (claim_C2_amended.2.2.2.2 { digest := some EVP_sha1, md_data := true, flags := 0 }
      EVP_sha1 (List.replicate 20 5) none 8 3 rfl (by decide)).2 1 (by decide)⟩

/-- Claim C8, evaluated at the failing input: on an initialized HMAC context
with the SHA-256 descriptor, a successful `HMAC_Update` leaves the context
unchanged, and `HMAC_Final` with an output buffer of writable capacity 0 is
*not* rejected — the call proceeds and reports `*len = 32` — because the
source's `__CPROVER_w_ok(md, md_size);` is a bare expression statement with
no effect instead of the intended `assert`.  (With any capacity the
reported length is exactly the descriptor's fixed 32 bytes.) -/
theorem claim_C8_hmac_final_eval :
    HMAC_Update ctxHmac true = some (ctxHmac, 1) ∧
    HMAC_Final ctxHmac 0 true = some (ctxHmac, 32, 1) ∧
    HMAC_Final ctxHmac 32 true = some (ctxHmac, 32, 1) ∧
    EVP_MD_size EVP_sha256 = 32 := by
  refine ⟨rfl, rfl, rfl, rfl⟩

/-- Claim C6: `EVP_DecodeBlock` returns 0 immediately for `n = 0` with no
write obligation; for `n > 0` not a multiple of 4, every execution that
does not take the modeled `-1` failure is a contract violation (rejected
with no write obligation); the `-1` failure path writes nothing; the
success path requires `t` writable for exactly `n / 4 * 3` bytes (rejected
when the capacity is one byte short) and returns `n`. -/
theorem claim_C6_decode_block :
    (∀ (tCap fLen : Nat) (fail : Bool), EVP_DecodeBlock tCap fLen 0 fail = some 0) ∧
    (∀ (tCap fLen : Nat) (n : Int), 0 < n → cMod n 4 ≠ 0 →
       EVP_DecodeBlock tCap fLen n false = none) ∧
    (∀ (tCap fLen : Nat) (n : Int), n ≠ 0 →
       EVP_DecodeBlock tCap fLen n true = some (-1)) ∧
    (∀ (tCap fLen : Nat) (n : Int), 0 < n → cMod n 4 = 0 →
       sizeTOfInt n ≤ fLen → sizeTOfInt (cDiv n 4 * 3) ≤ tCap →
       EVP_DecodeBlock tCap fLen n false = some n) ∧
    (∀ (tCap fLen : Nat) (n : Int), 0 < n → cMod n 4 = 0 →
       sizeTOfInt n ≤ fLen → tCap < sizeTOfInt (cDiv n 4 * 3) →
       EVP_DecodeBlock tCap fLen n false = none) := by
  refine ⟨?_, ?_, ?_, ?_, ?_⟩
  · intro tCap fLen fail
    simp [EVP_DecodeBlock]
  · intro tCap fLen n hn hmod
    have hne : ¬ n = 0 := by omega
    simp [EVP_DecodeBlock, hne, hmod]
  · intro tCap fLen n hn
    simp [EVP_DecodeBlock, hn]
  · intro tCap fLen n hn hmod hf ht
    have hne : ¬ n = 0 := by omega
    simp [EVP_DecodeBlock, hne, hmod, hf, ht]
  · intro tCap fLen n hn hmod hf ht
    have hne : ¬ n = 0 := by omega
    have hcap : ¬ sizeTOfInt (cDiv n 4 * 3) ≤ tCap := by omega
    simp [EVP_DecodeBlock, hne, hmod, hf, hcap]

/-- Concrete instantiation of claim C6: `n = 0` returns 0 with a zero-byte
buffer; `n = 5` (not a multiple of 4) is rejected; `n = 8` may return `-1`;
`n = 8` on the success path requires exactly 6 writable bytes (capacity 6
succeeds returning 8, capacity 5 is rejected). -/
theorem claim_C6_decode_block_witness :
    EVP_DecodeBlock 0 0 0 false = some 0 ∧
    EVP_DecodeBlock 9 9 5 false = none ∧
    EVP_DecodeBlock 6 8 8 true = some (-1) ∧
    EVP_DecodeBlock 6 8 8 false = some 8 ∧
    EVP_DecodeBlock 5 8 8 false = none :=
  ⟨claim_C6_decode_block.1 0 0 false,
   claim_C6_decode_block.2.1 9 9 5 (by decide) (by decide),
   claim_C6_decode_block.2.2.1 6 8 8 (by decide),
   claim_C6_decode_block.2.2.2.1 6 8 8 (by decide) (by decide) (by decide) (by decide),
   claim_C6_decode_block.2.2.2.2 5 8 8 (by decide) (by decide) (by decide) (by decide)⟩

/-- Claim C7: `EVP_EncodeBlock` always requires at least one writable byte
in `t` (rejected at capacity 0 for every input); `n = 0` writes only the
terminator (a capacity of 1 suffices) and returns 0; for `n > 0` the call
may return `-1` with no further write obligation; on success it requires
`t` writable for exactly `4 * ceil(n/3) + 1` bytes — data plus terminator —
and returns that length minus the terminator; numerically `n = 3` writes 5
bytes returning 4 and `n = 4` writes 9 bytes returning 8. -/
theorem claim_C7_encode_block :
    (∀ (fLen : Nat) (n : Int) (fail : Bool), EVP_EncodeBlock 0 fLen n fail = none) ∧
    (∀ (tCap fLen : Nat) (fail : Bool), 1 ≤ tCap →
       EVP_EncodeBlock tCap fLen 0 fail = some 0) ∧
    (∀ (tCap fLen : Nat) (n : Int), 1 ≤ tCap → n ≠ 0 →
       EVP_EncodeBlock tCap fLen n true = some (-1)) ∧
    (∀ (tCap fLen : Nat) (n : Int), 1 ≤ tCap → 0 < n →
       sizeTOfInt n ≤ fLen → sizeTOfInt (encWritten n) ≤ tCap →
       EVP_EncodeBlock tCap fLen n false = some (encWritten n - 1)) ∧
    (∀ (tCap fLen : Nat) (n : Int), 1 ≤ tCap → 0 < n →
       sizeTOfInt n ≤ fLen → tCap < sizeTOfInt (encWritten n) →
       EVP_EncodeBlock tCap fLen n false = none) ∧
    (encWritten 3 = 5 ∧ encWritten 3 - 1 = 4 ∧ encWritten 4 = 9 ∧ encWritten 4 - 1 = 8) := by
  refine ⟨?_, ?_, ?_, ?_, ?_, by decide⟩
  · intro fLen n fail
    rfl
  · intro tCap fLen fail h1
    simp [EVP_EncodeBlock, h1]
  · intro tCap fLen n h1 hn
    simp [EVP_EncodeBlock, h1, hn]
  · intro tCap fLen n h1 hn hf ht
    have hne : ¬ n = 0 := by omega
    simp [EVP_EncodeBlock, h1, hne, hf, ht]
  · intro tCap fLen n h1 hn hf ht
    have hne : ¬ n = 0 := by omega
    have hcap : ¬ sizeTOfInt (encWritten n) ≤ tCap := by omega
    simp [EVP_EncodeBlock, h1, hne, hf, hcap]

/-- Concrete instantiation of claim C7: capacity 0 always rejected; `n = 0`
returns 0 with capacity 1; `n = 3` requires 5 bytes returning 4 (capacity 4
rejected); `n = 4` requires 9 bytes returning 8. -/
theorem claim_C7_encode_block_witness :
    EVP_EncodeBlock 0 9 3 false = none ∧
    EVP_EncodeBlock 1 0 0 false = some 0 ∧
    EVP_EncodeBlock 5 9 3 true = some (-1) ∧
    EVP_EncodeBlock 5 9 3 false = some (encWritten 3 - 1) ∧
    EVP_EncodeBlock 4 9 3 false = none ∧
    EVP_EncodeBlock 9 9 4 false = some (encWritten 4 - 1) :=
  ⟨claim_C7_encode_block.1 9 3 false,
   claim_C7_encode_block.2.1 1 0 false (by decide),
   claim_C7_encode_block.2.2.1 5 9 3 (by decide) (by decide),
   claim_C7_encode_block.2.2.2.1 5 9 3 (by decide) (by decide) (by decide) (by decide),
   claim_C7_encode_block.2.2.2.2.1 4 9 3 (by decide) (by decide) (by decide) (by decide),
   claim_C7_encode_block.2.2.2.1 9 9 4 (by decide) (by decide) (by decide) (by decide)⟩
